import Mathlib

/-!
Shallow embedding of the winAUTO e-commerce test framework core
(src/agents/base_agent.py, src/agents/browser_agent.py,
src/agents/test_orchestrator.py, src/main.py), together with theorems
settling the specification claims about retry/backoff, element location,
scenario status derivation, suite aggregation, performance analysis and
CLI exit codes.

Modelling conventions: asynchronous Python operations become pure Lean
functions; an operation that may raise becomes a value of `Except String`
(the error text is `str(e)`); the mutable `self.metrics` dictionary
becomes explicit state passing; wall-clock sleeps are recorded as a list
of durations instead of actually suspending; browser pages are modelled
by which selectors resolve for each driver primitive.  Navigation and
form-filling primitives whose failures the source swallows field-by-field
are modelled as succeeding; selector resolution is the modelled source of
failure, which is what the claims under study are about.
-/

namespace WinAuto

/-! ## RetryExecutor: `BaseAgent.retry_on_failure` (base_agent.py lines 69-86) -/

/-- One structured entry of `self.metrics["errors"]`: the dict
`{"timestamp": ..., "function": ..., "error": ..., "attempt": ...}`
appended on final exhaustion. -/
structure ErrorEntry where
  timestamp : String
  function : String
  error : String
  attempt : Nat
deriving Repr, DecidableEq

/-- The `self.metrics` dictionary of `BaseAgent` (the fields the retry
path touches). -/
structure Metrics where
  tasks_completed : Nat
  tasks_failed : Nat
  errors : List ErrorEntry
deriving Repr, DecidableEq

/-- How a call to `retry_on_failure` terminates: `return result`,
`raise e`, or falling off the end of the `for` loop (Python then returns
`None`), which happens exactly when `max_retries = 0`. -/
inductive RetryOutcome (α : Type) where
  | ok (a : α)
  | raised (e : String)
  | fellThrough
deriving Repr, DecidableEq

/-- Observable trace of one `retry_on_failure` call: its outcome, the
metrics state on exit, the backoff sleep durations in order (seconds, as
passed to `asyncio.sleep`), and how many times the wrapped operation was
invoked. -/
structure RetryTrace (α : Type) where
  outcome : RetryOutcome α
  metrics : Metrics
  sleeps : List Nat
  calls : Nat
deriving Repr, DecidableEq

/-- Loop body of `retry_on_failure`.  The wrapped zero-argument operation
is modelled by `op : Nat → Except String α`, giving the outcome of its
invocation at the 0-based attempt index.  `fuel` is the number of loop
iterations left (`max_retries - attempt`), so the source guard
`attempt == max_retries - 1` is exactly `fuel = 1`.  On an intermediate
failure the source sleeps `2 ** attempt` seconds; on the final failure it
increments `tasks_failed`, appends one `ErrorEntry` with
`attempt + 1`, and re-raises. -/
def retryAux (op : Nat → Except String α) (fname ts : String) :
    Nat → Nat → Metrics → List Nat → Nat → RetryTrace α
  | 0, _, m, s, c => ⟨.fellThrough, m, s, c⟩
  | fuel + 1, attempt, m, s, c =>
    match op attempt with
    | .ok a => ⟨.ok a, m, s, c + 1⟩
    | .error e =>
      match fuel with
      | 0 =>
        ⟨.raised e,
         { m with tasks_failed := m.tasks_failed + 1,
                  errors := m.errors ++ [⟨ts, fname, e, attempt + 1⟩] },
         s, c + 1⟩
      | fuel2 + 1 =>
        retryAux op fname ts (fuel2 + 1) (attempt + 1) m (s ++ [2 ^ attempt]) (c + 1)

/-- Embedding of `BaseAgent.retry_on_failure(func, max_retries=...)`
starting from metrics state `m`, with `fname = func.__name__` and `ts`
the timestamp string used for any error entry. -/
def retry_on_failure (op : Nat → Except String α) (fname ts : String)
    (max_retries : Nat) (m : Metrics) : RetryTrace α :=
  retryAux op fname ts max_retries 0 m [] 0

/-- Unfolding of `retryAux` when the current attempt succeeds: the source
executes `return result` immediately. -/
theorem retryAux_ok (op : Nat → Except String α) (fname ts : String)
    (fuel attempt : Nat) (m : Metrics) (s : List Nat) (c : Nat) (a : α)
    (h : op attempt = Except.ok a) :
    retryAux op fname ts (fuel + 1) attempt m s c = ⟨.ok a, m, s, c + 1⟩ := by
  rw [retryAux, h]

/-- Unfolding of `retryAux` when the final attempt fails: the source
records one error entry, bumps `tasks_failed` and re-raises. -/
theorem retryAux_err_last (op : Nat → Except String α) (fname ts : String)
    (attempt : Nat) (m : Metrics) (s : List Nat) (c : Nat) (e : String)
    (h : op attempt = Except.error e) :
    retryAux op fname ts 1 attempt m s c =
      ⟨.raised e,
       { m with tasks_failed := m.tasks_failed + 1,
                errors := m.errors ++ [⟨ts, fname, e, attempt + 1⟩] },
       s, c + 1⟩ := by
  rw [retryAux, h]

/-- Unfolding of `retryAux` when a non-final attempt fails: the source
sleeps `2 ** attempt` seconds and continues the loop. -/
theorem retryAux_err_step (op : Nat → Except String α) (fname ts : String)
    (fuel attempt : Nat) (m : Metrics) (s : List Nat) (c : Nat) (e : String)
    (h : op attempt = Except.error e) :
    retryAux op fname ts (fuel + 2) attempt m s c =
      retryAux op fname ts (fuel + 1) (attempt + 1) m (s ++ [2 ^ attempt]) (c + 1) := by
  rw [retryAux, h]

/-- Running `retryAux` with `k + 1` iterations of fuel when the operation
fails at every remaining attempt index: the loop raises the final error,
appends exactly one error entry recording attempt number `attempt + k + 1`,
increments `tasks_failed` once, sleeps `2 ^ i` after each non-final
attempt `i`, and invokes the operation `k + 1` times. -/
theorem retryAux_allFail (op : Nat → Except String α) (fname ts : String)
    (err : Nat → String) :
    ∀ k attempt m s c,
    (∀ i, attempt ≤ i → i < attempt + (k + 1) → op i = Except.error (err i)) →
    retryAux op fname ts (k + 1) attempt m s c =
      ⟨.raised (err (attempt + k)),
       { m with tasks_failed := m.tasks_failed + 1,
                errors := m.errors ++ [⟨ts, fname, err (attempt + k), attempt + k + 1⟩] },
       s ++ (List.range' attempt k).map (fun i => 2 ^ i),
       c + (k + 1)⟩ := by
  intro k
  induction k with
  | zero =>
    intro attempt m s c hfail
    have hop : op attempt = Except.error (err attempt) :=
      hfail attempt (Nat.le_refl _) (by omega)
    rw [retryAux_err_last op fname ts attempt m s c _ hop]
    simp
  | succ k2 ih =>
    intro attempt m s c hfail
    have hop : op attempt = Except.error (err attempt) :=
      hfail attempt (Nat.le_refl _) (by omega)
    have hrec := ih (attempt + 1) m (s ++ [2 ^ attempt]) (c + 1)
      (fun i h1 h2 => hfail i (by omega) (by omega))
    rw [retryAux_err_step op fname ts k2 attempt m s c _ hop, hrec]
    have harg : attempt + 1 + k2 = attempt + (k2 + 1) := by omega
    rw [harg, List.range'_succ]
    simp [List.append_assoc]
    omega

/-- Running `retryAux` when the operation fails at the first `j` remaining
attempts and succeeds at the next one (with enough fuel left): the loop
returns the success value, leaves the metrics untouched, sleeps once per
failed attempt, and invokes the operation `j + 1` times. -/
theorem retryAux_succeeds (op : Nat → Except String α) (fname ts : String)
    (err : Nat → String) :
    ∀ j fuel attempt v m s c, j < fuel →
    (∀ i, attempt ≤ i → i < attempt + j → op i = Except.error (err i)) →
    op (attempt + j) = Except.ok v →
    retryAux op fname ts fuel attempt m s c =
      ⟨.ok v, m, s ++ (List.range' attempt j).map (fun i => 2 ^ i), c + (j + 1)⟩ := by
  intro j
  induction j with
  | zero =>
    intro fuel attempt v m s c hj hfail hok
    match fuel, hj with
    | f + 1, _ =>
      have hop : op attempt = Except.ok v := by simpa using hok
      rw [retryAux_ok op fname ts f attempt m s c v hop]
      simp
  | succ j2 ih =>
    intro fuel attempt v m s c hj hfail hok
    match fuel, hj with
    | f + 1, hj =>
      have hop : op attempt = Except.error (err attempt) :=
        hfail attempt (Nat.le_refl _) (by omega)
      match f, hj with
      | f2 + 1, hj =>
        have hrec := ih (f2 + 1) (attempt + 1) v m (s ++ [2 ^ attempt]) (c + 1)
          (by omega) (fun i h1 h2 => hfail i (by omega) (by omega))
          (by rw [show attempt + 1 + j2 = attempt + (j2 + 1) by omega]; exact hok)
        rw [retryAux_err_step op fname ts f2 attempt m s c _ hop, hrec,
            List.range'_succ]
        simp [List.append_assoc]
        omega

/-- C1: for a zero-argument operation retried with `max_retries = n ≥ 1`:
if every one of the `n` attempts fails, `retry_on_failure` raises a
failure carrying the original (final-attempt) error, appends exactly one
structured entry `{timestamp, function, error, attempt = n}` to
`metrics.errors`, and increments `tasks_failed` exactly once; if the
operation succeeds at 0-based attempt `j < n` after `j` failures, it
returns the success value with the metrics (failure log and counters)
completely unchanged. -/
theorem retry_on_failure_contract (op : Nat → Except String α) (fname ts : String)
    (n : Nat) (m : Metrics) (err : Nat → String) (hn : 1 ≤ n) :
    ((∀ i, i < n → op i = Except.error (err i)) →
      (retry_on_failure op fname ts n m).outcome = .raised (err (n - 1)) ∧
      (retry_on_failure op fname ts n m).metrics.errors
        = m.errors ++ [⟨ts, fname, err (n - 1), n⟩] ∧
      (retry_on_failure op fname ts n m).metrics.tasks_failed = m.tasks_failed + 1 ∧
      (retry_on_failure op fname ts n m).metrics.tasks_completed = m.tasks_completed) ∧
    (∀ j v, j < n → (∀ i, i < j → op i = Except.error (err i)) →
      op j = Except.ok v →
      (retry_on_failure op fname ts n m).outcome = .ok v ∧
      (retry_on_failure op fname ts n m).metrics = m) := by
  obtain ⟨k, rfl⟩ : ∃ k, n = k + 1 := ⟨n - 1, by omega⟩
  constructor
  · intro hfail
    have h := retryAux_allFail op fname ts err k 0 m [] 0
      (fun i h1 h2 => hfail i (by omega))
    rw [retry_on_failure, h]
    simp
  · intro j v hj hfail hok
    have h := retryAux_succeeds op fname ts err j (k + 1) 0 v m [] 0 hj
      (fun i h1 h2 => hfail i (by omega)) (by simpa using hok)
    rw [retry_on_failure, h]
    simp

/-- Always-failing operation used as a concrete witness input. -/
def opBoom : Nat → Except String Nat := fun _ => Except.error "boom"

/-- Error text of `opBoom` at every attempt. -/
def errBoom : Nat → String := fun _ => "boom"

/-- Operation that fails on the first attempt and succeeds on the second. -/
def opThenOk : Nat → Except String Nat :=
  fun i => if i = 0 then Except.error "boom" else Except.ok 42

/-- Witness for C1: three attempts of an always-failing operation raise
the original error with exactly one log entry recording attempt 3; an
operation that fails once then succeeds returns 42 with metrics
untouched. -/
theorem retry_on_failure_contract_witness :
    (retry_on_failure opBoom "op" "t0" 3 ⟨0, 0, []⟩).outcome = .raised "boom" ∧
    (retry_on_failure opBoom "op" "t0" 3 ⟨0, 0, []⟩).metrics.errors
      = [⟨"t0", "op", "boom", 3⟩] ∧
    (retry_on_failure opThenOk "op" "t0" 3 ⟨0, 0, []⟩).outcome = .ok 42 ∧
    (retry_on_failure opThenOk "op" "t0" 3 ⟨0, 0, []⟩).metrics = ⟨0, 0, []⟩ := by
  have h1 := (retry_on_failure_contract opBoom "op" "t0" 3 ⟨0, 0, []⟩ errBoom
    (by omega)).1 (fun i _ => rfl)
  have h2 := (retry_on_failure_contract opThenOk "op" "t0" 3 ⟨0, 0, []⟩ errBoom
    (by omega)).2 1 42 (by omega)
    (fun i hi => by
      have h0 : i = 0 := by omega
      subst h0
      simp [opThenOk, errBoom]) rfl
  refine ⟨?_, ?_, h2.1, h2.2⟩
  · simpa using h1.1
  · simpa using h1.2.1

/-- C7: when an operation is retried with `max_retries = n ≥ 1` and fails
every attempt, the recorded sleep before attempt `i + 1` (0-based gap `i`)
is `1 * 2 ^ i` seconds (backoff base 1 second as hardcoded by
`asyncio.sleep(2 ** attempt)`), there are exactly `n - 1` sleeps — none
after the final attempt — and consecutive sleep durations double. -/
theorem retry_backoff (op : Nat → Except String α) (fname ts : String)
    (n : Nat) (m : Metrics) (err : Nat → String) (hn : 1 ≤ n)
    (hfail : ∀ i, i < n → op i = Except.error (err i)) :
    (retry_on_failure op fname ts n m).sleeps
      = (List.range (n - 1)).map (fun i => 1 * 2 ^ i) ∧
    (retry_on_failure op fname ts n m).sleeps.length = n - 1 ∧
    (∀ i, i < n - 1 →
      (retry_on_failure op fname ts n m).sleeps[i]? = some (2 ^ i)) ∧
    (∀ i, i + 1 < n - 1 →
      (retry_on_failure op fname ts n m).sleeps[i + 1]?
        = ((retry_on_failure op fname ts n m).sleeps[i]?).map
            (fun d => 2 * d)) := by
  obtain ⟨k, rfl⟩ : ∃ k, n = k + 1 := ⟨n - 1, by omega⟩
  have h := retryAux_allFail op fname ts err k 0 m [] 0
    (fun i h1 h2 => hfail i (by omega))
  have hs : (retry_on_failure op fname ts (k + 1) m).sleeps
      = (List.range k).map (fun i => 2 ^ i) := by
    rw [retry_on_failure, h]
    simp [List.range_eq_range']
  refine ⟨?_, ?_, ?_, ?_⟩
  · rw [hs]; simp
  · rw [hs]; simp
  · intro i hi
    rw [hs, List.getElem?_map, List.getElem?_range (by omega : i < k)]
    rfl
  · intro i hi
    rw [hs, List.getElem?_map, List.getElem?_map,
        List.getElem?_range (by omega : i + 1 < k),
        List.getElem?_range (by omega : i < k)]
    simp [pow_succ, Nat.mul_comm]

/-- Witness for C7: with `max_retries = 4` and an always-failing
operation, the recorded backoff sleeps are `[1, 2, 4]` seconds. -/
theorem retry_backoff_witness :
    (retry_on_failure opBoom "op" "t0" 4 ⟨0, 0, []⟩).sleeps = [1, 2, 4] := by
  have h := (retry_backoff opBoom "op" "t0" 4 ⟨0, 0, []⟩ errBoom (by omega)
    (fun i _ => rfl)).1
  exact h.trans (by decide)

/-- C10: calling `retry_on_failure` with `max_retries = 0` runs zero loop
iterations: it invokes the operation zero times, raises nothing, falls
through the loop returning Python `None`, records no sleep, and leaves
the failure log and all counters exactly as they were. -/
theorem retry_zero_attempts (op : Nat → Except String α) (fname ts : String)
    (m : Metrics) :
    retry_on_failure op fname ts 0 m = ⟨.fellThrough, m, [], 0⟩ := rfl

/-! ## ElementLocator and browser scenarios (browser_agent.py) -/

/-- Abstract model of a live page: which selectors each driver primitive
resolves on. `click_ok s` means `page.click(s)` succeeds; `fill_ok s`
means `page.fill(s, value)` succeeds; `wait_ok s` means
`page.wait_for_selector(s)` resolves within its timeout; `query_count s`
is the number of elements `page.query_selector_all(s)` returns. -/
structure Page where
  click_ok : String → Bool
  fill_ok : String → Bool
  wait_ok : String → Bool
  query_count : String → Nat

/-- Embedding of the source's first-match selector loops
(`for selector in ...:` / `try: ...; break` / `except: continue`):
returns the first candidate that resolves together with the ordered list
of candidates actually attempted. -/
def locate_first (resolves : String → Bool) :
    List String → Option String × List String
  | [] => (none, [])
  | s :: rest =>
    if resolves s then (some s, [s])
    else ((locate_first resolves rest).1, s :: (locate_first resolves rest).2)

/-- First selector in the list on which `page.click` succeeds, if any. -/
def click_first (p : Page) : List String → Option String
  | [] => none
  | s :: rest => if p.click_ok s then some s else click_first p rest

/-- First selector in the list on which `page.fill` succeeds, if any. -/
def fill_first (p : Page) : List String → Option String
  | [] => none
  | s :: rest => if p.fill_ok s then some s else fill_first p rest

/-- First result selector whose `query_selector_all` call yields a
nonempty element list (`if elements: ...; break`), with its count. -/
def count_first (p : Page) : List String → Option Nat
  | [] => none
  | s :: rest =>
    if p.query_count s ≠ 0 then some (p.query_count s) else count_first p rest

/-- Candidate selectors of `_add_to_cart` (browser_agent.py lines 314-320). -/
def add_to_cart_selectors : List String :=
  ["button[data-action=\"add-to-cart\"]", ".add-to-cart", "#add-to-cart-button",
   "button:has-text(\"Add to Cart\")", "button:has-text(\"เพิ่มลงตะกร้า\")"]

/-- Candidate selectors of `_submit_order` (browser_agent.py lines 368-374). -/
def submit_selectors : List String :=
  ["button[type=\"submit\"]", ".submit-order", "#place-order",
   "button:has-text(\"Place Order\")", "button:has-text(\"สั่งซื้อ\")"]

/-- Search-input candidates of `test_product_search` (lines 192-197). -/
def search_selectors : List String :=
  ["input[name=\"search\"]", "input[type=\"search\"]", "#search", ".search-input"]

/-- Result-count candidates of `test_product_search` (lines 213-217). -/
def result_selectors : List String :=
  [".product-item", ".search-result", "[data-testid=\"product\"]"]

/-- Cart-navigation candidates of `test_cart_management` (lines 258-262). -/
def cart_selectors : List String :=
  ["a[href*=\"cart\"]", ".cart-link", "#cart-button"]

/-- Quantity-input candidates of `test_cart_management` (lines 274-278). -/
def quantity_selectors : List String :=
  ["input[name*=\"quantity\"]", ".quantity-input", "[data-testid=\"quantity\"]"]

/-- Remove-item candidates of `test_cart_management` (lines 289-293). -/
def remove_selectors : List String :=
  [".remove-item", "button[data-action=\"remove\"]", ".delete-button"]

/-- Embedding of `BrowserAgent._add_to_cart`: tries the candidate
selectors in order; the first successful click returns; if every
candidate fails the source raises
`Exception("Could not find add to cart button")`. -/
def add_to_cart (p : Page) : Except String Unit :=
  match click_first p add_to_cart_selectors with
  | some _ => Except.ok ()
  | none => Except.error "Could not find add to cart button"

/-- Embedding of `BrowserAgent._submit_order`: first successful click
wins; if every candidate fails the source raises
`Exception("Could not find submit order button")`. -/
def submit_order (p : Page) : Except String Unit :=
  match click_first p submit_selectors with
  | some _ => Except.ok ()
  | none => Except.error "Could not find submit order button"

/-- Result dictionary of `test_product_search` (the fields the claims
are about): `search_results` is `none` while the initial `[]` placeholder
is never overwritten. -/
structure SearchResults where
  success : Bool
  search_results : Option Nat
  errors : List String
deriving Repr, DecidableEq

/-- Embedding of `BrowserAgent.test_product_search`: locates a search
input via the first-match loop; if none of the candidates resolves,
`search_input` stays `None`, the `if search_input:` block is skipped and
the result keeps `success = False` with no error recorded. -/
def test_product_search (p : Page) : SearchResults :=
  match (locate_first p.wait_ok search_selectors).1 with
  | none => ⟨false, none, []⟩
  | some _ => ⟨true, count_first p result_selectors, []⟩

/-- Result dictionary of `test_cart_management`. -/
structure CartResults where
  success : Bool
  cart_operations : List String
  errors : List String
deriving Repr, DecidableEq

/-- Embedding of `BrowserAgent.test_cart_management`: add-to-cart is
required (its exception aborts the scenario via the outer `except`);
cart navigation, quantity update and item removal are attempted through
swallow-all loops, so when their selectors fail nothing is recorded and
execution continues; `results["success"] = True` is then set
unconditionally. -/
def test_cart_management (p : Page) : CartResults :=
  match add_to_cart p with
  | Except.error e => ⟨false, [], [e]⟩
  | Except.ok _ =>
    let ops1 := ["item_added"]
    let ops2 := if (fill_first p quantity_selectors).isSome
      then ops1 ++ ["quantity_updated"] else ops1
    let ops3 := if (click_first p remove_selectors).isSome
      then ops2 ++ ["item_removed"] else ops2
    ⟨true, ops3, []⟩

/-- Status of one scenario step, as the specification's data model
classifies it. -/
inductive StepStatus where
  | succeeded
  | failed
  | skipped
deriving Repr, DecidableEq

/-- Derived step outcomes of the cart-management scenario in execution
order: the required add-to-cart step, then the three optional operations
(navigate to cart, quantity update, remove item), each of which the
source silently skips when no selector resolves. When the required step
raises, the scenario aborts with only that failed step executed. -/
def cart_step_outcomes (p : Page) : List StepStatus :=
  match add_to_cart p with
  | Except.error _ => [.failed]
  | Except.ok _ =>
    [.succeeded,
     if (click_first p cart_selectors).isSome then .succeeded else .skipped,
     if (fill_first p quantity_selectors).isSome then .succeeded else .skipped,
     if (click_first p remove_selectors).isSome then .succeeded else .skipped]

/-- The locator loop on a list where no candidate resolves: it attempts
every candidate and yields no handle, without raising. -/
theorem locate_first_none (resolves : String → Bool) :
    ∀ l, (∀ a ∈ l, resolves a = false) →
      locate_first resolves l = (none, l) := by
  intro l
  induction l with
  | nil => intro _; rfl
  | cons a rest ih =>
    intro h
    have ha : resolves a = false := h a (List.mem_cons_self a rest)
    simp [locate_first, ha, ih (fun b hb => h b (List.mem_cons_of_mem a hb))]

/-- The click loop on a list where no candidate resolves yields nothing. -/
theorem click_first_none (p : Page) :
    ∀ l, (∀ a ∈ l, p.click_ok a = false) → click_first p l = none := by
  intro l
  induction l with
  | nil => intro _; rfl
  | cons a rest ih =>
    intro h
    simp [click_first, h a (List.mem_cons_self a rest),
          ih (fun x hx => h x (List.mem_cons_of_mem a hx))]

/-- C5: the element locator tries candidates strictly in list order and
stops at the first one that resolves: on candidates `pre ++ b :: post`
where nothing in `pre` resolves and `b` does, it returns the handle from
`b`, the attempted list is exactly `pre ++ [b]`, and no candidate that
occurs only in `post` is ever attempted. -/
theorem locate_first_order (resolves : String → Bool) (pre post : List String)
    (b : String) (hpre : ∀ a ∈ pre, resolves a = false)
    (hb : resolves b = true) :
    locate_first resolves (pre ++ b :: post) = (some b, pre ++ [b]) ∧
    ∀ c ∈ post, c ∉ pre → c ≠ b →
      c ∉ (locate_first resolves (pre ++ b :: post)).2 := by
  have main : locate_first resolves (pre ++ b :: post) = (some b, pre ++ [b]) := by
    induction pre with
    | nil => simp [locate_first, hb]
    | cons a rest ih =>
      have ha : resolves a = false := hpre a (List.mem_cons_self a rest)
      have ih2 := ih (fun x hx => hpre x (List.mem_cons_of_mem a hx))
      simp [locate_first, ha, ih2]
  refine ⟨main, ?_⟩
  intro c _hc hcpre hcb
  rw [main]
  simp [hcpre, hcb]

/-- Resolver for the C5 witness: only selector `B` resolves. -/
def resolvesB : String → Bool := fun s => s == "B"

/-- Witness for C5 at candidates `[A, B, C]` where only `B` resolves:
the handle comes from `B` and `C` is never attempted. -/
theorem locate_first_order_witness :
    locate_first resolvesB ["A", "B", "C"] = (some "B", ["A", "B"]) ∧
    "C" ∉ (locate_first resolvesB ["A", "B", "C"]).2 := by
  have h := locate_first_order resolvesB ["A"] ["C"] "B" (by decide) (by decide)
  exact ⟨h.1, h.2 "C" (by decide) (by decide) (by decide)⟩

/-- Page on which only the `.add-to-cart` selector resolves for clicks
and nothing else resolves for any primitive. -/
def pSkip : Page :=
  ⟨fun s => s == ".add-to-cart", fun _ => false, fun _ => false, fun _ => 0⟩

/-- Page on which no selector resolves for any primitive. -/
def pNone : Page :=
  ⟨fun _ => false, fun _ => false, fun _ => false, fun _ => 0⟩

/-- C2 counterexample: on `pSkip` the cart-management scenario reports
overall success (`results["success"] = True`) even though the cart
navigation, quantity update and item removal steps were skipped, so a
skipped step does not force the scenario status to `failed`, refuting
the claimed equivalence. -/
theorem cart_success_despite_skipped :
    (test_cart_management pSkip).success = true ∧
    StepStatus.skipped ∈ cart_step_outcomes pSkip := by decide

/-- C2 (amended): the cart-management scenario's overall status is
`succeeded` iff its required step (add to cart) succeeded, i.e. iff the
first recorded step outcome is `succeeded`; a failed step forces overall
failure, but skipped optional steps do not affect the overall status. -/
theorem cart_success_iff_required_step (p : Page) :
    ((test_cart_management p).success = true ↔
      (cart_step_outcomes p).head? = some .succeeded) ∧
    (StepStatus.failed ∈ cart_step_outcomes p →
      (test_cart_management p).success = false) := by
  cases h : add_to_cart p with
  | error e =>
    constructor
    · simp [test_cart_management, cart_step_outcomes, h]
    · intro _
      simp [test_cart_management, h]
  | ok u =>
    constructor
    · simp [test_cart_management, cart_step_outcomes, h]
    · intro hm
      simp only [cart_step_outcomes, h] at hm
      split_ifs at hm <;> simp_all

/-- Witness for the amended C2 at the page where add-to-cart cannot be
located: the required step fails and the scenario status is failed. -/
theorem cart_success_iff_required_step_witness :
    (test_cart_management pNone).success = false :=
  (cart_success_iff_required_step pNone).2 (by decide)

/-- C6 counterexample: on a page where no add-to-cart candidate
resolves, `_add_to_cart` does not return a NotFound value — it raises
`Exception("Could not find add to cart button")` (modelled as
`Except.error`), so the cited element-location operations convert
exhaustion into an exception rather than a value. -/
theorem add_to_cart_raises_on_exhaustion :
    add_to_cart pNone = Except.error "Could not find add to cart button" := rfl

/-- C6 (amended): when every candidate fails, the candidate loop itself
exits without raising and yields no handle; the search-input locator in
`test_product_search` treats the absence as a value (success stays false
and no error is recorded), while `_add_to_cart` and `_submit_order`
convert the absence into a raised descriptive exception, which the
enclosing scenario handler catches. -/
theorem locator_exhaustion_behaviour (p : Page) :
    ((∀ s ∈ search_selectors, p.wait_ok s = false) →
      (locate_first p.wait_ok search_selectors).1 = none ∧
      (test_product_search p).success = false ∧
      (test_product_search p).errors = []) ∧
    ((∀ s ∈ add_to_cart_selectors, p.click_ok s = false) →
      add_to_cart p = Except.error "Could not find add to cart button") ∧
    ((∀ s ∈ submit_selectors, p.click_ok s = false) →
      submit_order p = Except.error "Could not find submit order button") := by
  refine ⟨?_, ?_, ?_⟩
  · intro h
    have hl := locate_first_none p.wait_ok search_selectors h
    simp [test_product_search, hl]
  · intro h
    have hc := click_first_none p add_to_cart_selectors h
    simp [add_to_cart, hc]
  · intro h
    have hc := click_first_none p submit_selectors h
    simp [submit_order, hc]

/-- Witness for the amended C6 at the page where nothing resolves. -/
theorem locator_exhaustion_behaviour_witness :
    (test_product_search pNone).success = false ∧
    submit_order pNone = Except.error "Could not find submit order button" := by
  have h := locator_exhaustion_behaviour pNone
  exact ⟨(h.1 (by decide)).2.1, h.2.2 (by decide)⟩

/-! ## SuiteOrchestrator (test_orchestrator.py) -/

/-- One scenario of a suite, identified by its `name` key. -/
structure Scenario where
  name : String
deriving Repr, DecidableEq

/-- One entry of `suite_results["tests"]` (the fields the claims are
about): on the exception path `success` stays `False` and `error` holds
`str(e)`. -/
structure TestResult where
  name : String
  success : Bool
  error : Option String
deriving Repr, DecidableEq

/-- The `suite_results["summary"]` running counters. -/
structure Summary where
  total_tests : Nat
  passed : Nat
  failed : Nat
deriving Repr, DecidableEq

/-- The mutable suite-results object threaded through
`_execute_test_with_llm_guidance`. -/
structure SuiteResults where
  tests : List TestResult
  summary : Summary
deriving Repr, DecidableEq

/-- Embedding of `TestOrchestrator._execute_test_with_llm_guidance`.
`run s` models everything that can raise inside the `try` block for
scenario `s` (browser setup and `browser.execute`); it yields either the
scenario's `success` flag or the text of an escaping exception.  On
normal return the summary counters are updated by the success flag; on
an exception the error text is stored, `total_tests` and `failed` are
bumped; on both paths the `finally` block appends exactly one test
entry. -/
def execute_test_with_llm_guidance (run : Scenario → Except String Bool)
    (s : Scenario) (suite : SuiteResults) : SuiteResults :=
  match run s with
  | Except.ok success =>
    { tests := suite.tests ++ [⟨s.name, success, none⟩],
      summary :=
        { total_tests := suite.summary.total_tests + 1,
          passed := suite.summary.passed + (if success then 1 else 0),
          failed := suite.summary.failed + (if success then 0 else 1) } }
  | Except.error e =>
    { tests := suite.tests ++ [⟨s.name, false, some e⟩],
      summary :=
        { total_tests := suite.summary.total_tests + 1,
          passed := suite.summary.passed,
          failed := suite.summary.failed + 1 } }

/-- The scenario loop of `run_full_test_suite`
(`for scenario in test_scenarios: await self._execute_test_with_llm_guidance(...)`). -/
def run_scenarios (run : Scenario → Except String Bool)
    (scenarios : List Scenario) (suite : SuiteResults) : SuiteResults :=
  scenarios.foldl (fun acc s => execute_test_with_llm_guidance run s acc) suite

/-- The single test entry that executing scenario `s` appends. -/
def test_result_of (run : Scenario → Except String Bool) (s : Scenario) :
    TestResult :=
  match run s with
  | Except.ok b => ⟨s.name, b, none⟩
  | Except.error e => ⟨s.name, false, some e⟩

/-- Stepping the suite through one scenario appends exactly that
scenario's entry. -/
theorem execute_test_tests (run : Scenario → Except String Bool)
    (s : Scenario) (suite : SuiteResults) :
    (execute_test_with_llm_guidance run s suite).tests
      = suite.tests ++ [test_result_of run s] ∧
    (execute_test_with_llm_guidance run s suite).summary.total_tests
      = suite.summary.total_tests + 1 := by
  cases h : run s <;>
    simp [execute_test_with_llm_guidance, test_result_of, h]

/-- C3: the suite layer catches any exception escaping a scenario and
keeps going: the recorded test list is exactly one entry per scenario in
original declaration order (`total` counts every scenario), and a
scenario whose execution raises `e` is recorded as failed with the
exception text `e` — it never aborts the remaining scenarios. -/
theorem run_scenarios_resilient (run : Scenario → Except String Bool)
    (scenarios : List Scenario) (suite : SuiteResults) :
    (run_scenarios run scenarios suite).tests
      = suite.tests ++ scenarios.map (test_result_of run) ∧
    (run_scenarios run scenarios suite).summary.total_tests
      = suite.summary.total_tests + scenarios.length ∧
    (∀ s e, run s = Except.error e →
      test_result_of run s = ⟨s.name, false, some e⟩) := by
  refine ⟨?_, ?_, ?_⟩
  · induction scenarios generalizing suite with
    | nil => simp [run_scenarios]
    | cons s rest ih =>
      have hstep := execute_test_tests run s suite
      calc (run_scenarios run (s :: rest) suite).tests
          = (run_scenarios run rest (execute_test_with_llm_guidance run s suite)).tests := rfl
        _ = (execute_test_with_llm_guidance run s suite).tests
              ++ rest.map (test_result_of run) := ih _
        _ = suite.tests ++ (s :: rest).map (test_result_of run) := by
              rw [hstep.1]; simp
  · induction scenarios generalizing suite with
    | nil => simp [run_scenarios]
    | cons s rest ih =>
      have hstep := execute_test_tests run s suite
      calc (run_scenarios run (s :: rest) suite).summary.total_tests
          = (run_scenarios run rest
              (execute_test_with_llm_guidance run s suite)).summary.total_tests := rfl
        _ = (execute_test_with_llm_guidance run s suite).summary.total_tests
              + rest.length := ih _
        _ = suite.summary.total_tests + (s :: rest).length := by
              rw [hstep.2]; simp; omega
  · intro s e h
    simp [test_result_of, h]

/-- Runner for the C3 witness: scenario `s2` raises, the others return
a successful result. -/
def runCrash2 : Scenario → Except String Bool :=
  fun s => if s.name = "s2" then Except.error "crash" else Except.ok true

/-- The three declared scenarios of the C3 witness suite. -/
def threeScenarios : List Scenario := [⟨"s1"⟩, ⟨"s2"⟩, ⟨"s3"⟩]

/-- Witness for C3: in a 3-scenario suite whose second scenario throws,
all three results appear in declaration order, scenario 2 is marked
failed with the exception text, and `total = 3`. -/
theorem run_scenarios_resilient_witness :
    (run_scenarios runCrash2 threeScenarios ⟨[], ⟨0, 0, 0⟩⟩).tests
      = [⟨"s1", true, none⟩, ⟨"s2", false, some "crash"⟩, ⟨"s3", true, none⟩] ∧
    (run_scenarios runCrash2 threeScenarios ⟨[], ⟨0, 0, 0⟩⟩).summary.total_tests = 3 := by
  have h := run_scenarios_resilient runCrash2 threeScenarios ⟨[], ⟨0, 0, 0⟩⟩
  have h2 := h.2.2 ⟨"s2"⟩ "crash" rfl
  refine ⟨?_, ?_⟩
  · rw [h.1]
    simp only [List.nil_append]
    rw [show threeScenarios.map (test_result_of runCrash2)
        = [⟨"s1", true, none⟩, ⟨"s2", false, some "crash"⟩, ⟨"s3", true, none⟩] by decide]
  · rw [h.2.1]
    decide

/-- The two running invariants of a suite-results object: `total =
passed + failed` and one recorded test entry per counted test. -/
def suite_invariant (st : SuiteResults) : Prop :=
  st.summary.total_tests = st.summary.passed + st.summary.failed ∧
  st.tests.length = st.summary.total_tests

/-- C4: the freshly initialised suite object satisfies
`total == passed + failed` and `len(tests) == total`, executing any
single scenario preserves both equations (each execution increments
`total` exactly once and appends exactly one entry, on the success and
the exception path alike), and hence the invariant holds at every
scenario boundary during and after any run. -/
theorem suite_invariant_preserved :
    suite_invariant ⟨[], ⟨0, 0, 0⟩⟩ ∧
    (∀ (run : Scenario → Except String Bool) (s : Scenario) (st : SuiteResults),
      suite_invariant st →
      suite_invariant (execute_test_with_llm_guidance run s st)) ∧
    (∀ (run : Scenario → Except String Bool) (scenarios : List Scenario)
      (st : SuiteResults), suite_invariant st →
      suite_invariant (run_scenarios run scenarios st)) := by
  have hstep : ∀ (run : Scenario → Except String Bool) (s : Scenario)
      (st : SuiteResults), suite_invariant st →
      suite_invariant (execute_test_with_llm_guidance run s st) := by
    intro run s st ⟨h1, h2⟩
    cases h : run s with
    | ok b =>
      cases b <;>
        simp_all [execute_test_with_llm_guidance, suite_invariant] <;> omega
    | error e =>
      simp_all [execute_test_with_llm_guidance, suite_invariant]
      omega
  refine ⟨⟨rfl, rfl⟩, hstep, ?_⟩
  intro run scenarios
  induction scenarios with
  | nil => intro st h; exact h
  | cons s rest ih =>
    intro st h
    exact ih _ (hstep run s st h)

/-- Witness for C4: the invariant holds after running the concrete
3-scenario witness suite from the initial state. -/
theorem suite_invariant_preserved_witness :
    suite_invariant (run_scenarios runCrash2 threeScenarios ⟨[], ⟨0, 0, 0⟩⟩) :=
  suite_invariant_preserved.2.2 runCrash2 threeScenarios ⟨[], ⟨0, 0, 0⟩⟩ ⟨rfl, rfl⟩

/-! ## Performance analysis (test_orchestrator.py `_analyze_performance`) -/

/-- One finished test as seen by `_analyze_performance`: its name, its
duration in seconds (the source derives it from the recorded start/end
timestamps) and its success flag. -/
structure TimedTest where
  name : String
  duration : ℚ
  success : Bool
deriving Repr, DecidableEq

/-- The `performance_data` fields computed by `_analyze_performance`
that the claim is about. -/
structure PerformanceData where
  average_test_duration : ℚ
  slowest_tests : List (String × ℚ)
  failed_tests : List String
deriving Repr, DecidableEq

/-- The `test_durations` list built by the loop over
`suite_results["tests"]`, in execution order. -/
def test_durations (tests : List TimedTest) : List (String × ℚ) :=
  tests.map (fun t => (t.name, t.duration))

/-- Ordering used for
`sorted(test_durations, key=lambda x: x["duration"], reverse=True)`:
Python's sort is stable and `reverse=True` only reverses the key
comparison, so the result keeps `x` before `y` exactly when `x`'s
duration is at least `y`'s; any stable sort with this relation produces
the same list, realised here by insertion sort. -/
def durGE (x y : String × ℚ) : Prop := y.2 ≤ x.2

instance : DecidableRel durGE :=
  fun x y => inferInstanceAs (Decidable (y.2 ≤ x.2))

/-- Embedding of `_analyze_performance` (the fields the claim is about):
average duration, the stable descending top 3, and the failed test names
in execution order; when no test carries timestamps the average stays 0
and the slowest list stays empty. -/
def analyze_performance (tests : List TimedTest) : PerformanceData :=
  let durations := test_durations tests
  { average_test_duration :=
      if durations.isEmpty then 0
      else (durations.map (fun x => x.2)).sum / (durations.length : ℚ),
    slowest_tests :=
      if durations.isEmpty then []
      else (List.insertionSort durGE durations).take 3,
    failed_tests := (tests.filter (fun t => !t.success)).map (fun t => t.name) }

/-- Annotation of a list with 0-based original positions, used to state
the tie-breaking discipline of the specification. -/
def annotate : Nat → List α → List (Nat × α)
  | _, [] => []
  | n, x :: t => (n, x) :: annotate (n + 1) t

/-- Strict "slower first, original position among equals" comparison on
position-annotated duration entries. -/
def lexSlower (a b : Nat × String × ℚ) : Prop :=
  b.2.2 < a.2.2 ∨ (a.2.2 = b.2.2 ∧ a.1 < b.1)

instance : DecidableRel lexSlower :=
  fun a b =>
    inferInstanceAs (Decidable (b.2.2 < a.2.2 ∨ (a.2.2 = b.2.2 ∧ a.1 < b.1)))

/-- Specification-side top 3: annotate every entry with its original
position, sort by duration descending with ties broken by original
position ascending, take 3, and drop the annotations. -/
def spec_slowest (l : List (String × ℚ)) : List (String × ℚ) :=
  ((List.insertionSort lexSlower (annotate 0 l)).take 3).map Prod.snd

/-- Annotation indices start at the given position. -/
theorem mem_annotate {α : Type} (n : Nat) (l : List α) :
    ∀ b ∈ annotate n l, n ≤ b.1 := by
  induction l generalizing n with
  | nil =>
    intro b hb
    simp [annotate] at hb
  | cons x t ih =>
    intro b hb
    simp only [annotate, List.mem_cons] at hb
    rcases hb with h | h
    · subst h
      exact Nat.le_refl n
    · exact Nat.le_of_succ_le (ih (n + 1) b h)

/-- Inserting an element whose position index is smaller than that of
every element of the list commutes with dropping annotations: the strict
lexicographic comparison and the non-strict duration comparison agree in
that situation. -/
theorem orderedInsert_annotated_snd (a : Nat × String × ℚ) :
    ∀ L : List (Nat × String × ℚ), (∀ b ∈ L, a.1 < b.1) →
      (L.orderedInsert lexSlower a).map Prod.snd
        = (L.map Prod.snd).orderedInsert durGE a.2 := by
  intro L
  induction L with
  | nil => intro _; rfl
  | cons b L2 ih =>
    intro h
    have hab : a.1 < b.1 := h b (List.mem_cons_self b L2)
    by_cases hc : durGE a.2 b.2
    · have hl : lexSlower a b := by
        rcases lt_or_eq_of_le hc with hlt | heq
        · exact Or.inl hlt
        · exact Or.inr ⟨heq.symm, hab⟩
      simp only [List.orderedInsert, List.map_cons, if_pos hl, if_pos hc]
    · have hl : ¬ lexSlower a b := by
        intro hcontra
        rcases hcontra with hlt | ⟨heq, _⟩
        · exact hc (le_of_lt hlt)
        · exact hc (le_of_eq heq.symm)
      simp only [List.orderedInsert, List.map_cons, if_neg hl, if_neg hc]
      rw [ih (fun x hx => h x (List.mem_cons_of_mem b hx))]

/-- Sorting the annotated list by the strict lexicographic order and
dropping annotations equals stably sorting the plain list by descending
duration. -/
theorem insertionSort_annotated_snd :
    ∀ (n : Nat) (l : List (String × ℚ)),
      (List.insertionSort lexSlower (annotate n l)).map Prod.snd
        = List.insertionSort durGE l := by
  intro n l
  induction l generalizing n with
  | nil => rfl
  | cons x t ih =>
    have hmem : ∀ b ∈ List.insertionSort lexSlower (annotate (n + 1) t),
        (n, x).1 < b.1 := by
      intro b hb
      have hb2 : b ∈ annotate (n + 1) t :=
        (List.perm_insertionSort lexSlower (annotate (n + 1) t)).mem_iff.mp hb
      have := mem_annotate (n + 1) t b hb2
      omega
    calc (List.insertionSort lexSlower (annotate n (x :: t))).map Prod.snd
        = ((List.insertionSort lexSlower (annotate (n + 1) t)).orderedInsert
            lexSlower (n, x)).map Prod.snd := rfl
      _ = ((List.insertionSort lexSlower (annotate (n + 1) t)).map
            Prod.snd).orderedInsert durGE x :=
          orderedInsert_annotated_snd (n, x) _ hmem
      _ = (List.insertionSort durGE t).orderedInsert durGE x := by rw [ih]
      _ = List.insertionSort durGE (x :: t) := rfl

/-- C8: after all scenarios complete, the performance summary satisfies:
the average test duration equals the arithmetic mean of the per-scenario
durations; the slowest-tests list is the top 3 scenarios by duration
descending with ties broken by original execution order; and the
failed-tests list is exactly the names of the non-succeeded scenarios in
execution order. -/
theorem analyze_performance_spec (tests : List TimedTest) (h : tests ≠ []) :
    (analyze_performance tests).average_test_duration
      = (tests.map (fun t => t.duration)).sum / (tests.length : ℚ) ∧
    (analyze_performance tests).slowest_tests
      = spec_slowest (test_durations tests) ∧
    (analyze_performance tests).failed_tests
      = (tests.filter (fun t => t.success = false)).map (fun t => t.name) := by
  have hne : (test_durations tests).isEmpty = false := by
    cases tests with
    | nil => exact absurd rfl h
    | cons a t => rfl
  refine ⟨?_, ?_, ?_⟩
  · simp [analyze_performance, hne, test_durations, List.map_map,
      Function.comp_def, h]
  · have hs := insertionSort_annotated_snd 0 (test_durations tests)
    simp only [analyze_performance, hne, Bool.false_eq_true, if_false,
      spec_slowest]
    rw [List.map_take, hs]
  · simp only [analyze_performance]
    congr 1
    apply List.filter_congr
    intro a _
    cases ha : a.success <;> simp [ha]

/-- Concrete suite for the C8 witness, with a duration tie between the
first and third tests and one failing test. -/
def sampleTests : List TimedTest :=
  [⟨"a", 2, true⟩, ⟨"b", 1, false⟩, ⟨"c", 2, true⟩, ⟨"d", 3, true⟩]

/-- Witness for C8 on `sampleTests`: the top 3 agree with the annotated
specification ordering (tie `a` before `c` by original order) and the
failed list is exactly `["b"]`. -/
theorem analyze_performance_spec_witness :
    (analyze_performance sampleTests).slowest_tests
      = spec_slowest (test_durations sampleTests) ∧
    (analyze_performance sampleTests).failed_tests = ["b"] := by
  have h := analyze_performance_spec sampleTests (by decide)
  refine ⟨h.2.1, ?_⟩
  rw [h.2.2]
  decide

/-! ## Suite fatal-error handling and CLI exit codes (main.py) -/

/-- The parts of the `suite_results` object of `run_full_test_suite`
visible to `main`: the recorded tests, the summary counters, and the
`"error"` key set when an exception was caught inside the suite. -/
structure FullSuiteResults where
  tests : List TestResult
  summary : Summary
  error : Option String
deriving Repr, DecidableEq

/-- Embedding of the try/except skeleton of
`TestOrchestrator.run_full_test_suite`: `siteConfig` is whether
`_get_site_config` found the target site (the source raises `ValueError`
otherwise), `dataGen` models the test-data generation call, and
`reportGen` models the post-suite analysis/report stage.  An exception
raised by any of these stages is caught by the outer `except`, recorded
under `suite_results["error"]`, and leaves the summary counters as they
were — the function itself returns normally. -/
def run_full_test_suite (siteConfig : Bool) (dataGen : Except String Unit)
    (run : Scenario → Except String Bool) (scenarios : List Scenario)
    (reportGen : Except String Unit) : FullSuiteResults :=
  if siteConfig = false then
    ⟨[], ⟨0, 0, 0⟩, some "No configuration found for site"⟩
  else
    match dataGen with
    | Except.error e => ⟨[], ⟨0, 0, 0⟩, some e⟩
    | Except.ok _ =>
      let s := run_scenarios run scenarios ⟨[], ⟨0, 0, 0⟩⟩
      match reportGen with
      | Except.error e => ⟨s.tests, s.summary, some e⟩
      | Except.ok _ => ⟨s.tests, s.summary, none⟩

/-- How one CLI invocation of `main()` ends: the orchestrator returned a
suite-results object, the user interrupted, or some other exception
escaped the orchestrator. -/
inductive RunOutcome where
  | ok (r : FullSuiteResults)
  | keyboardInterrupt
  | fatal (msg : String)

/-- Embedding of the exit-code logic of `main()` (main.py lines
116-127): `sys.exit(1)` iff the returned summary has `failed > 0`, else
`sys.exit(0)`; `sys.exit(130)` on `KeyboardInterrupt`; `sys.exit(1)`
when any other exception escapes. -/
def main_exit_code : RunOutcome → Nat
  | .ok r => if 0 < r.summary.failed then 1 else 0
  | .keyboardInterrupt => 130
  | .fatal _ => 1

/-- Suite run whose test-data generation stage raises. -/
def crashedSuite : FullSuiteResults :=
  run_full_test_suite true (Except.error "data generation failed")
    (fun _ => Except.ok true) [] (Except.ok ())

/-- C9 counterexample: a fatal error during execution (test-data
generation raising inside `run_full_test_suite`) is caught and recorded
in the result, the summary's `failed` counter stays 0, and `main` exits
with code 0 — not 1 as the claim requires for a fatal error. -/
theorem main_exit_zero_despite_fatal :
    crashedSuite.error = some "data generation failed" ∧
    main_exit_code (.ok crashedSuite) = 0 := by decide

/-- C9 (amended): the exit code is 130 exactly on user interrupt and 1
when an exception escapes the orchestrator itself; for a completed run
it is 0 iff the suite summary's `failed` counter is 0 — including runs
where a fatal error was caught inside the suite and recorded under
`error` without any test having failed — and 1 otherwise. -/
theorem main_exit_code_spec (siteConfig : Bool) (dataGen : Except String Unit)
    (run : Scenario → Except String Bool) (scenarios : List Scenario)
    (reportGen : Except String Unit) :
    (main_exit_code (.ok (run_full_test_suite siteConfig dataGen run
        scenarios reportGen)) = 0
      ↔ (run_full_test_suite siteConfig dataGen run scenarios
          reportGen).summary.failed = 0) ∧
    main_exit_code .keyboardInterrupt = 130 ∧
    (∀ msg, main_exit_code (.fatal msg) = 1) := by
  refine ⟨?_, rfl, fun _ => rfl⟩
  simp only [main_exit_code]
  rcases Nat.eq_zero_or_pos (run_full_test_suite siteConfig dataGen run
      scenarios reportGen).summary.failed with h0 | hpos
  · simp [h0]
  · rw [if_pos hpos]
    constructor
    · intro hcontra
      exact absurd hcontra one_ne_zero
    · intro h0
      omega

end WinAuto
